import Mathlib

/-!
Verification of the Tongji-Voice task/voice lifecycle manager.

The definitions below are a shallow embedding of the Flask service in
`app.py` and `audio_utils.py`.  File-backed JSON collections are modelled as
`Option (List _)` (`none` = the JSON file does not exist on disk), the set of
generated artifact files in the upload folder as a `List String` of
filenames, and every external collaborator (audio normalizer, duration
measurement, `pyttsx3` synthesis engine, slide-deck parser) as an explicit
input parameter, since the core only observes its success/failure and value.
Python truthiness of optional string fields (`data.get(...)`,
`task.get("output_audio")`) is modelled by `Option.getD _ "" = ""`.
-/

namespace TongjiVoice

/-- Python `str.isspace` characters relevant to `str.strip()` (ASCII range:
space, tab, newline, carriage return, vertical tab, form feed). -/
def isPySpace (c : Char) : Bool :=
  c = ' ' || c = '\t' || c = '\n' || c = '\r' || c = Char.ofNat 11 || c = Char.ofNat 12

/-- Strip leading and trailing whitespace from a character list. -/
def stripList (l : List Char) : List Char :=
  ((l.dropWhile isPySpace).reverse.dropWhile isPySpace).reverse

/-- Python `str.strip()` with no arguments. -/
def pyStrip (s : String) : String :=
  String.mk (stripList s.toList)

/-- `os.path.basename`: the part of a path after the last slash. -/
def basename (p : String) : String :=
  String.mk ((p.toList.reverse.takeWhile (fun c => c ≠ '/')).reverse)

/-- A voice-sample metadata record, as persisted in `audio_metadata.json`
(`upload_audio` in `app.py`).  `duration` (a Python float of seconds) is
modelled as a rational. -/
structure Voice where
  id : String
  filename : String
  duration : Rat
  upload_time : String
  path : String
deriving DecidableEq, Repr

/-- A text-task record, as persisted in `text_tasks.json`
(`submit_text_task` in `app.py`).  `status` is the literal JSON string
("pending" / "completed"); `output_audio` is `none` while the key is absent
(a freshly submitted task). -/
structure TaskRecord where
  task_id : String
  voice_id : String
  text : String
  submit_time : String
  status : String
  output_audio : Option String
deriving DecidableEq, Repr

/-- `save_metadata` in `app.py`: load the voice collection (empty list when
the file is absent), append the record, write it back. -/
def save_metadata (store : Option (List Voice)) (m : Voice) : Option (List Voice) :=
  some (store.getD [] ++ [m])

/-- `load_all_voices` in `app.py`: the full voice collection, or `[]` when
`audio_metadata.json` does not exist. -/
def load_all_voices (store : Option (List Voice)) : List Voice :=
  store.getD []

/-- `check_audio_duration` in `audio_utils.py`: the measured duration is an
input (it comes from `librosa.get_duration`); the check raises `ValueError`
iff the duration lies strictly below `min_sec` or strictly above `max_sec`
(call sites use the defaults `min_sec = 5`, `max_sec = 30`). -/
def check_audio_duration (duration min_sec max_sec : Rat) : Except String Rat :=
  if duration < min_sec ∨ max_sec < duration then
    Except.error ("音频时长为 " ++ toString duration ++ " 秒，不在 " ++
      toString min_sec ++ "-" ++ toString max_sec ++ " 秒之间")
  else
    Except.ok duration

/-- Outcome of `upload_audio`: HTTP 400 (no file), HTTP 500 (the message of
the exception raised by `standardize_audio` or `check_audio_duration`), or
HTTP 200 with the fresh voice id. -/
inductive UploadResult
  | noFile
  | processingError (msg : String)
  | ok (id : String)
deriving DecidableEq, Repr

/-- `upload_audio` in `app.py`.  `hasFile` models `'file' in request.files`;
`standardizeResult` is the outcome of the external `standardize_audio`
(processed path on success, exception message on failure);
`measuredDuration` is the seconds value `librosa` would report for the
processed file; `voice_id` is the `uuid.uuid4()` draw and `upload_time` the
`time.strftime` value.  Returns the HTTP outcome and the new state of the
voice collection (unchanged on every failure: `save_metadata` is only
reached after both checks pass). -/
def upload_audio (hasFile : Bool) (standardizeResult : Except String String)
    (measuredDuration : Rat) (voice_id upload_time : String)
    (voices0 : Option (List Voice)) : UploadResult × Option (List Voice) :=
  if hasFile = false then (.noFile, voices0)
  else
    match standardizeResult with
    | .error e => (.processingError e, voices0)
    | .ok processed_path =>
      match check_audio_duration measuredDuration 5 30 with
      | .error e => (.processingError e, voices0)
      | .ok duration =>
        (.ok voice_id,
         save_metadata voices0
           ⟨voice_id, basename processed_path, duration, upload_time, processed_path⟩)

/-- Outcome of `submit_text_task`.  The three rejection constructors mirror
the three distinct HTTP-400 responses of the route; in the spec's taxonomy
`emptyFieldError` and `lengthError` are `ValidationError` and
`invalidVoiceError` is `ReferenceError`. -/
inductive SubmitResult
  | emptyFieldError
  | lengthError
  | invalidVoiceError
  | ok (task_id : String)
deriving DecidableEq, Repr

/-- `submit_text_task` in `app.py`.  `dataText` / `dataVoiceId` model
`data.get("text", "")` / `data.get("voice_id")` from the request JSON; the
text is stripped before every check and before being stored.  `task_id` is
the `uuid.uuid4()` draw and `submit_time` the `time.strftime` value.
Returns the HTTP outcome and the new state of `text_tasks.json` (the task
file is read and rewritten only after all three checks pass). -/
def submit_text_task (dataText dataVoiceId : Option String)
    (voices0 : Option (List Voice)) (tasks0 : Option (List TaskRecord))
    (task_id submit_time : String) : SubmitResult × Option (List TaskRecord) :=
  if pyStrip (dataText.getD "") = "" ∨ dataVoiceId.getD "" = "" then
    (.emptyFieldError, tasks0)
  else if (pyStrip (dataText.getD "")).length < 800 ∨
      2000 < (pyStrip (dataText.getD "")).length then
    (.lengthError, tasks0)
  else if ((load_all_voices voices0).any fun v => v.id == dataVoiceId.getD "") = false then
    (.invalidVoiceError, tasks0)
  else
    (.ok task_id,
     some (tasks0.getD [] ++
       [⟨task_id, dataVoiceId.getD "", pyStrip (dataText.getD ""), submit_time,
         "pending", none⟩]))

/-- Outcome of `generate_audio`: HTTP 400 (missing id / missing task file),
HTTP 404 (unknown task), HTTP 500 (the synthesis engine raised), or HTTP 200
with the artifact filename and download URL. -/
inductive GenResult
  | badRequest (msg : String)
  | notFound (msg : String)
  | synthesisFailure (msg : String)
  | ok (audio_file download_url : String)
deriving DecidableEq, Repr

/-- In-place mutation of the first matching record, as Python's
`next((t for t in tasks if ...), None)` followed by item assignment does. -/
def updateFirst (p : TaskRecord → Bool) (f : TaskRecord → TaskRecord) :
    List TaskRecord → List TaskRecord
  | [] => []
  | t :: ts => if p t then f t :: ts else t :: updateFirst p f ts

/-- `generate_audio` in `app.py`.  `dataTaskId` models `data.get("task_id")`;
`synthErr` is the outcome of the external `pyttsx3` engine calls inside the
`try` block (`none` = synthesis succeeded, `some e` = an engine call raised
with message `e`).  On engine failure the handler returns HTTP 500 before
any task mutation, so the collection is returned untouched; on success the
found task's `status` becomes "completed", its `output_audio` becomes
`task_id ++ "_output.wav"`, and the collection is rewritten. -/
def generate_audio (dataTaskId : Option String) (tasks0 : Option (List TaskRecord))
    (synthErr : Option String) : GenResult × Option (List TaskRecord) :=
  if dataTaskId.getD "" = "" then (.badRequest "缺少 task_id", tasks0)
  else
    match tasks0 with
    | none => (.badRequest "任务列表为空", tasks0)
    | some tasks =>
      match tasks.find? (fun t => t.task_id == dataTaskId.getD "") with
      | none => (.notFound "未找到任务", tasks0)
      | some _ =>
        match synthErr with
        | some e => (.synthesisFailure e, tasks0)
        | none =>
          (.ok (dataTaskId.getD "" ++ "_output.wav") ("/get_audio/" ++ dataTaskId.getD ""),
           some (updateFirst (fun t => t.task_id == dataTaskId.getD "")
             (fun t => { t with
               status := "completed",
               output_audio := some (dataTaskId.getD "" ++ "_output.wav") }) tasks))

/-- Outcome of `get_audio`: every failure path of the route is HTTP 404
(with its message); success streams the artifact file from the upload
folder. -/
inductive FetchResult
  | notFound (msg : String)
  | fileResponse (filename : String)
deriving DecidableEq, Repr

/-- `get_audio` in `app.py`.  `files` is the set of filenames present in the
upload folder (modelling `os.path.exists` on the artifact path).  404 unless
the task file exists, the task is found, its status is "completed", its
`output_audio` is a truthy filename, and that file exists. -/
def get_audio (task_id : String) (tasks0 : Option (List TaskRecord))
    (files : List String) : FetchResult :=
  match tasks0 with
  | none => .notFound "任务记录不存在"
  | some tasks =>
    match tasks.find? (fun t => t.task_id == task_id) with
    | none => .notFound "任务未完成或未找到"
    | some task =>
      if task.status ≠ "completed" then .notFound "任务未完成或未找到"
      else if task.output_audio.getD "" = "" ∨ task.output_audio.getD "" ∉ files then
        .notFound "音频文件不存在"
      else .fileResponse (task.output_audio.getD "")

/-- Outcome of `delete_task`: HTTP 404 when `text_tasks.json` does not
exist, otherwise HTTP 200 with the deletion message. -/
inductive DeleteResult
  | notFound (msg : String)
  | ok (msg : String)
deriving DecidableEq, Repr

/-- The artifact-removal loop of `delete_task`: for every record whose
`task_id` matches and whose `output_audio` is truthy, remove that filename
from the upload folder (`os.remove` guarded by `os.path.exists`; removing an
absent file is a no-op, which `List.filter` models exactly). -/
def removeArtifacts (task_id : String) : List TaskRecord → List String → List String
  | [], files => files
  | t :: ts, files =>
    if t.task_id = task_id ∧ t.output_audio.getD "" ≠ "" then
      removeArtifacts task_id ts (files.filter (fun f => f ≠ t.output_audio.getD ""))
    else
      removeArtifacts task_id ts files

/-- `delete_task` in `app.py`.  404 when the task file does not exist;
otherwise keep every record whose `task_id` differs, delete the artifact
files of the matching records, rewrite the collection, and report success
(also when no record matched). -/
def delete_task (task_id : String) (tasks0 : Option (List TaskRecord))
    (files : List String) : DeleteResult × Option (List TaskRecord) × List String :=
  match tasks0 with
  | none => (.notFound "任务列表不存在", none, files)
  | some tasks =>
    (.ok ("任务 " ++ task_id ++ " 已删除"),
     some (tasks.filter (fun t => t.task_id ≠ task_id)),
     removeArtifacts task_id tasks files)

/-- The per-slide extraction of `upload_ppt` in `app.py`: a shape is
modelled as `Option String` (`some` iff `hasattr(shape, "text")`, carrying
`shape.text`); the slide's blob is `'\n'.join(texts).strip()` over the
text-bearing shapes in document order. -/
def extract_slide_text (shapes : List (Option String)) : String :=
  pyStrip (String.intercalate "\n" (shapes.filterMap id))

/-- The slide loop of `upload_ppt`: one blob per slide, in deck order. -/
def extractSlides (deck : List (List (Option String))) : List String :=
  deck.map extract_slide_text

/-- The `slide_count` field of the `upload_ppt` response:
`len(slide_texts)`. -/
def slide_count (deck : List (List (Option String))) : Nat :=
  (extractSlides deck).length

/-- The per-page blob exactly as the claim words it: the plain concatenation,
in document order, of the text of the page's text-bearing elements (written
from the spec's sentence, to be compared with `extract_slide_text`). -/
def claimConcatBlob (shapes : List (Option String)) : String :=
  String.join (shapes.filterMap id)

/-- A deterministic identity not occurring in `ids`: strictly longer than
every element. -/
def freshId (ids : List String) : String :=
  String.mk (List.replicate ((ids.map String.length).foldr max 0 + 1) 'x')

/-- Outcome of voice registration with an optional requested identity. -/
inductive RegisterResult
  | duplicateIdentity
  | ok (id : String)
deriving DecidableEq, Repr

/-- Modelled from the spec: the repository's `upload_audio` variant that
accepts a requested identity (`custom_id`) is not among the sources here —
only its tests are (`test_app.py`: a duplicate `custom_id` yields HTTP 400
"该声音样本ID已存在") — so §4.2 is followed: if `requestedId` is supplied and
already present among stored voices, fail with `DuplicateIdentity` and leave
the store untouched; otherwise use the requested identity, or generate a
fresh identity unique among stored voices, and append the new record. -/
def registerVoice (requestedId : Option String) (filename : String) (duration : Rat)
    (sourcePath upload_time : String) (voices : List Voice) :
    RegisterResult × List Voice :=
  match requestedId with
  | some rid =>
    if (voices.any fun v => v.id == rid) = true then (.duplicateIdentity, voices)
    else (.ok rid, voices ++ [⟨rid, filename, duration, upload_time, sourcePath⟩])
  | none =>
    (.ok (freshId (voices.map fun v => v.id)),
     voices ++ [⟨freshId (voices.map fun v => v.id), filename, duration,
       upload_time, sourcePath⟩])

/-! ### Helper lemmas -/

theorem length_mk (l : List Char) : (String.mk l).length = l.length := rfl

theorem dropWhile_isPySpace_replicate_a (n : Nat) :
    List.dropWhile isPySpace (List.replicate n 'a') = List.replicate n 'a' := by
  cases n with
  | zero => rfl
  | succ m =>
    rw [List.replicate_succ, List.dropWhile_cons, if_neg (by decide)]

theorem stripList_replicate_a (n : Nat) :
    stripList (List.replicate n 'a') = List.replicate n 'a' := by
  unfold stripList
  rw [dropWhile_isPySpace_replicate_a, List.reverse_replicate,
    dropWhile_isPySpace_replicate_a, List.reverse_replicate]

theorem pyStrip_replicate_a (n : Nat) :
    pyStrip (String.mk (List.replicate n 'a')) = String.mk (List.replicate n 'a') := by
  unfold pyStrip
  rw [show (String.mk (List.replicate n 'a')).toList = List.replicate n 'a' from rfl,
    stripList_replicate_a]

theorem length_pyStrip_replicate_a (n : Nat) :
    (pyStrip (String.mk (List.replicate n 'a'))).length = n := by
  rw [pyStrip_replicate_a, length_mk, List.length_replicate]

theorem stripList_replicate_pad (n : Nat) :
    stripList (List.replicate (n + 1) 'a' ++ [' ']) = List.replicate (n + 1) 'a' := by
  unfold stripList
  rw [List.replicate_succ, List.cons_append, List.dropWhile_cons, if_neg (by decide),
    ← List.cons_append, ← List.replicate_succ, List.reverse_append,
    List.reverse_replicate]
  rw [show ([' '] : List Char).reverse = [' '] from rfl, List.singleton_append,
    List.dropWhile_cons, if_pos (by decide), dropWhile_isPySpace_replicate_a,
    List.reverse_replicate]

theorem pyStrip_replicate_pad (n : Nat) :
    pyStrip (String.mk (List.replicate (n + 1) 'a' ++ [' '])) =
      String.mk (List.replicate (n + 1) 'a') := by
  unfold pyStrip
  rw [show (String.mk (List.replicate (n + 1) 'a' ++ [' '])).toList =
      List.replicate (n + 1) 'a' ++ [' '] from rfl, stripList_replicate_pad]

theorem mk_replicate_ne_empty (n : Nat) (h : 0 < n) :
    String.mk (List.replicate n 'a') ≠ "" := by
  intro he
  have h1 : (String.mk (List.replicate n 'a')).length = n := by
    rw [length_mk, List.length_replicate]
  rw [he] at h1
  have h2 : ("" : String).length = 0 := rfl
  omega

/-- If all three validation checks pass, `submit_text_task` succeeds and
appends exactly one record holding the stripped text. -/
theorem submit_ok_of (raw vid tid st : String) (voices0 : Option (List Voice))
    (tasks0 : Option (List TaskRecord)) (hvid : vid ≠ "")
    (hvoice : ((load_all_voices voices0).any fun v => v.id == vid) = true)
    (hne : pyStrip raw ≠ "")
    (hlen : ¬((pyStrip raw).length < 800 ∨ 2000 < (pyStrip raw).length)) :
    submit_text_task (some raw) (some vid) voices0 tasks0 tid st =
      (.ok tid, some (tasks0.getD [] ++ [⟨tid, vid, pyStrip raw, st, "pending", none⟩])) := by
  simp only [submit_text_task, Option.getD_some]
  rw [if_neg (by rintro (h | h); exact hne h; exact hvid h), if_neg hlen,
    if_neg (by rw [hvoice]; simp)]

/-- If the stripped text is non-empty but violates the length bounds,
`submit_text_task` rejects with the length error and writes nothing. -/
theorem submit_lengthError_of (raw vid tid st : String) (voices0 : Option (List Voice))
    (tasks0 : Option (List TaskRecord)) (hvid : vid ≠ "") (hne : pyStrip raw ≠ "")
    (hlen : (pyStrip raw).length < 800 ∨ 2000 < (pyStrip raw).length) :
    submit_text_task (some raw) (some vid) voices0 tasks0 tid st =
      (.lengthError, tasks0) := by
  simp only [submit_text_task, Option.getD_some]
  rw [if_neg (by rintro (h | h); exact hne h; exact hvid h), if_pos hlen]

theorem removeArtifacts_no_match (tid : String) (ts : List TaskRecord)
    (files : List String) (h : ∀ t ∈ ts, t.task_id ≠ tid) :
    removeArtifacts tid ts files = files := by
  induction ts generalizing files with
  | nil => rfl
  | cons a ts ih =>
    simp only [removeArtifacts]
    rw [if_neg (by rintro ⟨h1, h2⟩; exact h a (List.mem_cons_self a ts) h1)]
    exact ih files (fun t ht => h t (List.mem_cons_of_mem a ht))

theorem removeArtifacts_not_mem (tid x : String) (ts : List TaskRecord)
    (files : List String) (h : x ∉ files) : x ∉ removeArtifacts tid ts files := by
  induction ts generalizing files with
  | nil => exact h
  | cons a ts ih =>
    simp only [removeArtifacts]
    split
    · exact ih _ (fun hc => h (List.mem_of_mem_filter hc))
    · exact ih _ h

theorem removeArtifacts_removes (tid f : String) (t : TaskRecord)
    (hid : t.task_id = tid) (hart : t.output_audio = some f) (hf : f ≠ "") :
    ∀ (ts : List TaskRecord) (files : List String), t ∈ ts →
      f ∉ removeArtifacts tid ts files := by
  intro ts
  induction ts with
  | nil => intro files ht; cases ht
  | cons a ts ih =>
    intro files ht
    rcases List.mem_cons.mp ht with heq | hmem
    · subst heq
      simp only [removeArtifacts]
      rw [if_pos ⟨hid, by rw [hart]; simpa using hf⟩]
      apply removeArtifacts_not_mem
      rw [hart]
      simp [List.mem_filter]
    · simp only [removeArtifacts]
      split
      · exact ih _ hmem
      · exact ih _ hmem

theorem find?_filter_self_none (tid : String) (tasks : List TaskRecord) :
    (tasks.filter fun t => t.task_id ≠ tid).find? (fun t => t.task_id == tid) = none := by
  rw [List.find?_eq_none]
  intro x hx
  rw [List.mem_filter] at hx
  have h2 : x.task_id ≠ tid := by simpa using hx.2
  simp [h2]

theorem le_foldr_max (n : Nat) (l : List Nat) (h : n ∈ l) : n ≤ l.foldr max 0 := by
  induction l with
  | nil => cases h
  | cons a t ih =>
    rcases List.mem_cons.mp h with rfl | h2
    · exact Nat.le_max_left _ _
    · exact Nat.le_trans (ih h2) (Nat.le_max_right _ _)

theorem freshId_not_mem (ids : List String) : freshId ids ∉ ids := by
  intro hmem
  have h1 : (freshId ids).length = (ids.map String.length).foldr max 0 + 1 := by
    rw [freshId, length_mk, List.length_replicate]
  have h2 : (freshId ids).length ∈ ids.map String.length :=
    List.mem_map_of_mem String.length hmem
  have h3 := le_foldr_max _ _ h2
  omega

/-! ### Claim theorems -/

/-- C1: for a submission with an existing voice id, `submit_text_task`
rejects with the length `ValidationError` when the (stripped) text length is
799 or 2001 characters, and succeeds when it is exactly 800 or exactly 2000
characters — the `[800, 2000]` bounds are inclusive. -/
theorem submit_text_task_boundaries (rawText vid tid st : String)
    (voices0 : Option (List Voice)) (tasks0 : Option (List TaskRecord))
    (hvid : vid ≠ "")
    (hvoice : ((load_all_voices voices0).any fun v => v.id == vid) = true) :
    (((pyStrip rawText).length = 799 ∨ (pyStrip rawText).length = 2001) →
      (submit_text_task (some rawText) (some vid) voices0 tasks0 tid st).1 =
        .lengthError) ∧
    (((pyStrip rawText).length = 800 ∨ (pyStrip rawText).length = 2000) →
      (submit_text_task (some rawText) (some vid) voices0 tasks0 tid st).1 =
        .ok tid) := by
  constructor
  · intro h
    have hne : pyStrip rawText ≠ "" := by
      intro he
      have h0 : ("" : String).length = 0 := rfl
      rw [he, h0] at h
      omega
    rw [submit_lengthError_of rawText vid tid st voices0 tasks0 hvid hne
      (by omega)]
  · intro h
    have hne : pyStrip rawText ≠ "" := by
      intro he
      have h0 : ("" : String).length = 0 := rfl
      rw [he, h0] at h
      omega
    rw [submit_ok_of rawText vid tid st voices0 tasks0 hvid hvoice hne (by omega)]

theorem submit_text_task_boundaries_witness :
    ((submit_text_task (some (String.mk (List.replicate 799 'a'))) (some "v1")
        (some [⟨"v1", "f.wav", 12, "t0", "p0"⟩]) none "tid1" "st1").1 =
      .lengthError) ∧
    ((submit_text_task (some (String.mk (List.replicate 800 'a'))) (some "v1")
        (some [⟨"v1", "f.wav", 12, "t0", "p0"⟩]) none "tid1" "st1").1 =
      .ok "tid1") ∧
    ((submit_text_task (some (String.mk (List.replicate 2000 'a'))) (some "v1")
        (some [⟨"v1", "f.wav", 12, "t0", "p0"⟩]) none "tid1" "st1").1 =
      .ok "tid1") ∧
    ((submit_text_task (some (String.mk (List.replicate 2001 'a'))) (some "v1")
        (some [⟨"v1", "f.wav", 12, "t0", "p0"⟩]) none "tid1" "st1").1 =
      .lengthError) :=
  ⟨(submit_text_task_boundaries _ "v1" "tid1" "st1" _ none (by decide)
      (by decide)).1 (Or.inl (length_pyStrip_replicate_a 799)),
   (submit_text_task_boundaries _ "v1" "tid1" "st1" _ none (by decide)
      (by decide)).2 (Or.inl (length_pyStrip_replicate_a 800)),
   (submit_text_task_boundaries _ "v1" "tid1" "st1" _ none (by decide)
      (by decide)).2 (Or.inr (length_pyStrip_replicate_a 2000)),
   (submit_text_task_boundaries _ "v1" "tid1" "st1" _ none (by decide)
      (by decide)).1 (Or.inr (length_pyStrip_replicate_a 2001))⟩

/-- C2: when the synthesis engine fails during `generate_audio` on an
existing task, the handler reports the failure (HTTP 500) and returns the
persisted task collection untouched — so the task's record, its `pending`
status and absent `output_audio` included, is exactly as before — and a
subsequent `generate_audio` call on the same task id with a working engine
succeeds (retry is possible). -/
theorem generate_audio_failure_preserves_tasks (task_id err : String)
    (tasks : List TaskRecord) (t : TaskRecord) (htid : task_id ≠ "")
    (hfind : tasks.find? (fun u => u.task_id == task_id) = some t) :
    generate_audio (some task_id) (some tasks) (some err) =
      (.synthesisFailure err, some tasks) ∧
    (generate_audio (some task_id) (some tasks) none).1 =
      .ok (task_id ++ "_output.wav") ("/get_audio/" ++ task_id) := by
  constructor <;> simp [generate_audio, htid, hfind]

theorem generate_audio_failure_preserves_tasks_witness :
    generate_audio (some "T1") (some [⟨"T1", "v1", "x", "s", "pending", none⟩])
        (some "boom") =
      (.synthesisFailure "boom", some [⟨"T1", "v1", "x", "s", "pending", none⟩]) ∧
    (generate_audio (some "T1") (some [⟨"T1", "v1", "x", "s", "pending", none⟩])
        none).1 =
      .ok ("T1" ++ "_output.wav") ("/get_audio/" ++ "T1") :=
  generate_audio_failure_preserves_tasks "T1" "boom"
    [⟨"T1", "v1", "x", "s", "pending", none⟩] ⟨"T1", "v1", "x", "s", "pending", none⟩
    (by decide) (by decide)

/-- C4: `delete_task` answers 404 `NotFound` when `text_tasks.json` does not
exist at all; deleting a task id that is absent from an existing collection
returns success and leaves both the collection and the artifact files of the
upload folder unchanged (idempotent delete). -/
theorem delete_task_absent_id_noop (tid : String) (tasks : List TaskRecord)
    (files : List String) :
    (delete_task tid none files).1 = .notFound "任务列表不存在" ∧
    ((∀ t ∈ tasks, t.task_id ≠ tid) →
      delete_task tid (some tasks) files =
        (.ok ("任务 " ++ tid ++ " 已删除"), some tasks, files)) := by
  refine ⟨rfl, fun h => ?_⟩
  simp only [delete_task]
  rw [removeArtifacts_no_match tid tasks files h, List.filter_eq_self.mpr]
  intro a ha
  simpa using h a ha

theorem delete_task_absent_id_noop_witness :
    (delete_task "T9" none ["a.wav"]).1 = .notFound "任务列表不存在" ∧
    delete_task "T9" (some [⟨"T1", "v1", "x", "s", "pending", none⟩]) ["a.wav"] =
      (.ok ("任务 " ++ "T9" ++ " 已删除"),
       some [⟨"T1", "v1", "x", "s", "pending", none⟩], ["a.wav"]) :=
  ⟨(delete_task_absent_id_noop "T9" [⟨"T1", "v1", "x", "s", "pending", none⟩]
      ["a.wav"]).1,
   (delete_task_absent_id_noop "T9" [⟨"T1", "v1", "x", "s", "pending", none⟩]
      ["a.wav"]).2 (by decide)⟩

/-- C6: every rejected `submit_text_task` request (empty/whitespace-only
text, missing voice id, text length out of bounds, or unresolved voice id)
writes nothing: the persisted task collection after the call equals the
collection before it. -/
theorem submit_text_task_rejected_no_write (dataText dataVoiceId : Option String)
    (voices0 : Option (List Voice)) (tasks0 : Option (List TaskRecord))
    (tid st : String)
    (h : ∀ r, (submit_text_task dataText dataVoiceId voices0 tasks0 tid st).1 ≠ .ok r) :
    (submit_text_task dataText dataVoiceId voices0 tasks0 tid st).2 = tasks0 := by
  unfold submit_text_task at h ⊢
  split_ifs at h ⊢ <;> first | rfl | exact absurd rfl (h tid)

theorem submit_text_task_rejected_no_write_witness :
    (submit_text_task (some "   ") (some "v1") none
      (some [⟨"T1", "v1", "x", "s", "pending", none⟩]) "tid" "st").2 =
      some [⟨"T1", "v1", "x", "s", "pending", none⟩] :=
  submit_text_task_rejected_no_write (some "   ") (some "v1") none
    (some [⟨"T1", "v1", "x", "s", "pending", none⟩]) "tid" "st"
    (by
      intro r h
      have h1 : (submit_text_task (some "   ") (some "v1") none
          (some [⟨"T1", "v1", "x", "s", "pending", none⟩]) "tid" "st").1 =
          .emptyFieldError := by decide
      rw [h1] at h
      exact SubmitResult.noConfusion h)

/-- C7: the artifact name produced by `generate_audio` is the deterministic
function `task_id ++ "_output.wav"` of the task id alone, so any two
successful generate calls on the same task id — regardless of the collection
state they run against — return the same `output_audio` value and target the
same file. -/
theorem generate_audio_deterministic_artifact (tid f f2 url url2 : String)
    (tasks0 tasks02 st st2 : Option (List TaskRecord))
    (h : generate_audio (some tid) tasks0 none = (.ok f url, st))
    (h2 : generate_audio (some tid) tasks02 none = (.ok f2 url2, st2)) :
    f = tid ++ "_output.wav" ∧ f = f2 := by
  have key : ∀ (ts st3 : Option (List TaskRecord)) (g u : String),
      generate_audio (some tid) ts none = (.ok g u, st3) →
        g = tid ++ "_output.wav" := by
    intro ts st3 g u hgen
    by_cases he : tid = ""
    · have hfst : (generate_audio (some tid) ts none).1 = .badRequest "缺少 task_id" := by
        simp [generate_audio, he]
      rw [hgen] at hfst
      exact GenResult.noConfusion hfst
    · cases ts with
      | none =>
        have hfst : (generate_audio (some tid) none none).1 = .badRequest "任务列表为空" := by
          simp [generate_audio, he]
        rw [hgen] at hfst
        exact GenResult.noConfusion hfst
      | some tasks =>
        cases hfind : tasks.find? (fun t => t.task_id == tid) with
        | none =>
          have hfst : (generate_audio (some tid) (some tasks) none).1 =
              .notFound "未找到任务" := by
            simp [generate_audio, he, hfind]
          rw [hgen] at hfst
          exact GenResult.noConfusion hfst
        | some t0 =>
          have hfst : (generate_audio (some tid) (some tasks) none).1 =
              .ok (tid ++ "_output.wav") ("/get_audio/" ++ tid) := by
            simp [generate_audio, he, hfind]
          rw [hgen] at hfst
          exact (GenResult.ok.inj hfst).1
  have k1 := key tasks0 st f url h
  have k2 := key tasks02 st2 f2 url2 h2
  exact ⟨k1, k1.trans k2.symm⟩

theorem generate_audio_deterministic_artifact_witness :
    ("T1_output.wav" : String) = "T1" ++ "_output.wav" ∧
    ("T1_output.wav" : String) = "T1_output.wav" :=
  generate_audio_deterministic_artifact "T1" "T1_output.wav" "T1_output.wav"
    ("/get_audio/" ++ "T1") ("/get_audio/" ++ "T1")
    (some [⟨"T1", "v1", "x", "s", "pending", none⟩])
    (some [⟨"T1", "v1", "x", "s", "pending", none⟩])
    (some [⟨"T1", "v1", "x", "s", "completed", some "T1_output.wav"⟩])
    (some [⟨"T1", "v1", "x", "s", "completed", some "T1_output.wav"⟩])
    (by decide) (by decide)

/-- C8: `check_audio_duration` (at the default bounds 5 and 30 used by
`upload_audio`) fails exactly when the measured duration lies outside the
inclusive interval `[5, 30]` seconds, and on that failure `upload_audio`
rejects the registration: the handler answers HTTP 500 and no voice record
is appended to the voice collection. -/
theorem check_audio_duration_range_and_reject (d : Rat) :
    ((∃ e, check_audio_duration d 5 30 = .error e) ↔ (d < 5 ∨ 30 < d)) ∧
    ((d < 5 ∨ 30 < d) →
      ∀ (proc vid uptime : String) (voices0 : Option (List Voice)),
        (upload_audio true (.ok proc) d vid uptime voices0).2 = voices0 ∧
        ∃ e, (upload_audio true (.ok proc) d vid uptime voices0).1 =
          .processingError e) := by
  constructor
  · constructor
    · rintro ⟨e, he⟩
      by_contra hc
      rw [check_audio_duration, if_neg hc] at he
      exact Except.noConfusion he
    · intro h
      exact ⟨_, by rw [check_audio_duration, if_pos h]⟩
  · intro h proc vid uptime voices0
    simp only [upload_audio, check_audio_duration]
    rw [if_pos h]
    simp

theorem check_audio_duration_range_and_reject_witness :
    (upload_audio true (.ok "uploads/processed_t.wav") 31 "v1" "t" (some [])).2 =
      some [] ∧
    ∃ e, (upload_audio true (.ok "uploads/processed_t.wav") 31 "v1" "t"
      (some [])).1 = .processingError e :=
  (check_audio_duration_range_and_reject 31).2 (Or.inr (by norm_num))
    "uploads/processed_t.wav" "v1" "t" (some [])

/-- C3 (spec-modelled registry): when a first `registerVoice` call with
requested id `rid` succeeds, a second call supplying the same `rid` fails
with `DuplicateIdentity` and leaves the store — the first call's voice
record included — untouched; and a call without a requested id appends a
record whose generated identity is unique among all stored voices. -/
theorem registerVoice_duplicate_and_fresh (rid fn fn2 sp sp2 t1 t2 v1 : String)
    (d1 d2 : Rat) (voices voices1 : List Voice)
    (h1 : registerVoice (some rid) fn d1 sp t1 voices = (.ok v1, voices1)) :
    registerVoice (some rid) fn2 d2 sp2 t2 voices1 = (.duplicateIdentity, voices1) ∧
    (⟨rid, fn, d1, t1, sp⟩ : Voice) ∈ voices1 ∧
    (∀ (fn3 sp3 t3 : String) (d3 : Rat) (vs : List Voice),
      (registerVoice none fn3 d3 sp3 t3 vs).2 =
        vs ++ [⟨freshId (vs.map fun v => v.id), fn3, d3, t3, sp3⟩] ∧
      freshId (vs.map fun v => v.id) ∉ vs.map fun v => v.id) := by
  by_cases hc : (voices.any fun v => v.id == rid) = true
  · have hdup : registerVoice (some rid) fn d1 sp t1 voices =
        (.duplicateIdentity, voices) := by
      simp [registerVoice, hc]
    rw [hdup] at h1
    exact absurd (congrArg Prod.fst h1) (by simp)
  · have heq : registerVoice (some rid) fn d1 sp t1 voices =
        (.ok rid, voices ++ [⟨rid, fn, d1, t1, sp⟩]) := by
      simp [registerVoice, hc]
    rw [heq] at h1
    have hv1 : voices ++ [⟨rid, fn, d1, t1, sp⟩] = voices1 := congrArg Prod.snd h1
    refine ⟨?_, ?_, ?_⟩
    · have hany : (voices1.any fun v => v.id == rid) = true := by
        rw [← hv1]
        simp
      simp [registerVoice, hany]
    · rw [← hv1]
      exact List.mem_append_right _ (List.mem_singleton.mpr rfl)
    · intro fn3 sp3 t3 d3 vs
      exact ⟨rfl, freshId_not_mem _⟩

theorem registerVoice_duplicate_and_fresh_witness :
    registerVoice (some "r1") "f2" 11 "p2" "t2" [⟨"r1", "f1", 10, "t1", "p1"⟩] =
      (.duplicateIdentity, [⟨"r1", "f1", 10, "t1", "p1"⟩]) ∧
    (⟨"r1", "f1", 10, "t1", "p1"⟩ : Voice) ∈
      [(⟨"r1", "f1", 10, "t1", "p1"⟩ : Voice)] :=
  ⟨(registerVoice_duplicate_and_fresh "r1" "f1" "f2" "p1" "p2" "t1" "t2" "r1" 10 11
      [] [⟨"r1", "f1", 10, "t1", "p1"⟩] (by decide)).1,
   (registerVoice_duplicate_and_fresh "r1" "f1" "f2" "p1" "p2" "t1" "t2" "r1" 10 11
      [] [⟨"r1", "f1", 10, "t1", "p1"⟩] (by decide)).2.1⟩

/-- C5: `get_audio` answers with the artifact file only when the task file
exists, the task is found, its status is "completed", its `output_audio`
names that file and the file is present in the upload folder (every other
path is a 404 `NotFound`); and after `delete_task` removes a task, a
subsequent `get_audio` on that task id answers 404, the task's recorded
artifact file having been removed from the upload folder as well. -/
theorem get_audio_completed_and_delete_cascade :
    (∀ (tid f : String) (tasks0 : Option (List TaskRecord)) (files : List String),
      get_audio tid tasks0 files = .fileResponse f →
        ∃ tasks task, tasks0 = some tasks ∧
          tasks.find? (fun t => t.task_id == tid) = some task ∧
          task.status = "completed" ∧ task.output_audio = some f ∧
          f ≠ "" ∧ f ∈ files) ∧
    (∀ (tid : String) (tasks : List TaskRecord) (files : List String),
      get_audio tid (delete_task tid (some tasks) files).2.1
          (delete_task tid (some tasks) files).2.2 =
        .notFound "任务未完成或未找到") ∧
    (∀ (tid f : String) (t : TaskRecord) (tasks : List TaskRecord)
        (files : List String),
      t ∈ tasks → t.task_id = tid → t.output_audio = some f → f ≠ "" →
        f ∉ (delete_task tid (some tasks) files).2.2) := by
  refine ⟨?_, ?_, ?_⟩
  · intro tid f tasks0 files hres
    cases tasks0 with
    | none => exact absurd hres (by simp [get_audio])
    | some tasks =>
      cases hfind : tasks.find? (fun t => t.task_id == tid) with
      | none =>
        have hna : get_audio tid (some tasks) files = .notFound "任务未完成或未找到" := by
          simp [get_audio, hfind]
        exact FetchResult.noConfusion (hna.symm.trans hres)
      | some task =>
        simp only [get_audio, hfind] at hres
        split_ifs at hres with hst hart
        push_neg at hst hart
        have hgd : task.output_audio.getD "" = f := FetchResult.fileResponse.inj hres
        have hsome : task.output_audio = some f := by
          cases harto : task.output_audio with
          | none =>
            rw [harto] at hart
            simp at hart
          | some a =>
            rw [harto] at hgd
            simpa using hgd
        exact ⟨tasks, task, rfl, hfind, hst, hsome, by rw [← hgd]; exact hart.1,
          by rw [← hgd]; exact hart.2⟩
  · intro tid tasks files
    simp only [delete_task]
    simp only [get_audio, find?_filter_self_none]
  · intro tid f t tasks files hmem hid hart hf
    simp only [delete_task]
    exact removeArtifacts_removes tid f t hid hart hf tasks files hmem

theorem get_audio_completed_and_delete_cascade_witness :
    get_audio "T1"
        (delete_task "T1"
          (some [⟨"T1", "v1", "x", "s", "completed", some "T1_output.wav"⟩])
          ["T1_output.wav"]).2.1
        (delete_task "T1"
          (some [⟨"T1", "v1", "x", "s", "completed", some "T1_output.wav"⟩])
          ["T1_output.wav"]).2.2 =
      .notFound "任务未完成或未找到" ∧
    "T1_output.wav" ∉
      (delete_task "T1"
        (some [⟨"T1", "v1", "x", "s", "completed", some "T1_output.wav"⟩])
        ["T1_output.wav"]).2.2 :=
  ⟨get_audio_completed_and_delete_cascade.2.1 "T1"
      [⟨"T1", "v1", "x", "s", "completed", some "T1_output.wav"⟩] ["T1_output.wav"],
   get_audio_completed_and_delete_cascade.2.2 "T1" "T1_output.wav"
      ⟨"T1", "v1", "x", "s", "completed", some "T1_output.wav"⟩
      [⟨"T1", "v1", "x", "s", "completed", some "T1_output.wav"⟩] ["T1_output.wav"]
      (by decide) rfl rfl (by decide)⟩

/-- C9 counterexample: on a page whose two text-bearing elements hold " a "
and "b", the code's blob is "a \nb" — the texts joined with a newline and
then stripped — while the claim's plain concatenation would be " a b". -/
theorem extract_slide_text_not_plain_concat :
    extract_slide_text [some " a ", some "b"] ≠
      claimConcatBlob [some " a ", some "b"] := by decide

/-- C9 (amended): `upload_ppt` returns exactly one text blob per page and
reports a slide count equal to the number of pages; elements without a text
capability contribute nothing; and each page's blob is the text of the
page's text-bearing elements joined in document order with newline
separators and then stripped of leading and trailing whitespace (not their
plain concatenation). -/
theorem extractSlides_per_page (deck : List (List (Option String))) :
    (extractSlides deck).length = deck.length ∧
    slide_count deck = deck.length ∧
    (∀ (xs ys : List (Option String)),
      extract_slide_text (xs ++ none :: ys) = extract_slide_text (xs ++ ys)) ∧
    (∀ (i : Nat) (page : List (Option String)), deck[i]? = some page →
      (extractSlides deck)[i]? =
        some (pyStrip (String.intercalate "\n" (page.filterMap id)))) := by
  refine ⟨by simp [extractSlides], by simp [slide_count, extractSlides], ?_, ?_⟩
  · intro xs ys
    simp [extract_slide_text, List.filterMap_append]
  · intro i page h
    simp [extractSlides, List.getElem?_map, h, extract_slide_text]

theorem extractSlides_per_page_witness :
    (extractSlides [[some "a", none, some "b"]])[0]? =
      some (pyStrip (String.intercalate "\n"
        (([some "a", none, some "b"] : List (Option String)).filterMap id))) :=
  (extractSlides_per_page [[some "a", none, some "b"]]).2.2.2 0
    [some "a", none, some "b"] rfl

/-- C10: `submit_text_task` strips the input text before validating and
persisting: the length rejection is decided by the stripped text (together
with its non-emptiness), a successful submission stores exactly the stripped
text, and there is an input whose raw length lies inside `[800, 2000]` that
is nevertheless rejected because its stripped length falls below 800. -/
theorem submit_text_task_strips (vid tid st : String)
    (voices0 : Option (List Voice)) (tasks0 : Option (List TaskRecord))
    (hvid : vid ≠ "")
    (hvoice : ((load_all_voices voices0).any fun v => v.id == vid) = true) :
    (∀ raw : String,
      ((submit_text_task (some raw) (some vid) voices0 tasks0 tid st).1 =
          .lengthError ↔
        (pyStrip raw ≠ "" ∧
          ((pyStrip raw).length < 800 ∨ 2000 < (pyStrip raw).length))) ∧
      ((submit_text_task (some raw) (some vid) voices0 tasks0 tid st).1 = .ok tid →
        (submit_text_task (some raw) (some vid) voices0 tasks0 tid st).2 =
          some (tasks0.getD [] ++ [⟨tid, vid, pyStrip raw, st, "pending", none⟩]))) ∧
    (∃ raw : String, 800 ≤ raw.length ∧ raw.length ≤ 2000 ∧
      (submit_text_task (some raw) (some vid) voices0 tasks0 tid st).1 =
        .lengthError) := by
  constructor
  · intro raw
    constructor
    · constructor
      · intro hres
        by_cases hne : pyStrip raw = ""
        · have hempty : (submit_text_task (some raw) (some vid) voices0 tasks0
              tid st).1 = .emptyFieldError := by
            simp [submit_text_task, hne]
          exact SubmitResult.noConfusion (hempty.symm.trans hres)
        · by_cases hlen : (pyStrip raw).length < 800 ∨ 2000 < (pyStrip raw).length
          · exact ⟨hne, hlen⟩
          · have hok : (submit_text_task (some raw) (some vid) voices0 tasks0
                tid st).1 = .ok tid := by
              rw [submit_ok_of raw vid tid st voices0 tasks0 hvid hvoice hne hlen]
            exact SubmitResult.noConfusion (hok.symm.trans hres)
      · rintro ⟨hne, hlen⟩
        rw [submit_lengthError_of raw vid tid st voices0 tasks0 hvid hne hlen]
    · intro hok
      by_cases hne : pyStrip raw = ""
      · have hempty : (submit_text_task (some raw) (some vid) voices0 tasks0
            tid st).1 = .emptyFieldError := by
          simp [submit_text_task, hne]
        exact absurd (hempty.symm.trans hok) (by simp)
      · by_cases hlen : (pyStrip raw).length < 800 ∨ 2000 < (pyStrip raw).length
        · have hle : (submit_text_task (some raw) (some vid) voices0 tasks0
              tid st).1 = .lengthError := by
            rw [submit_lengthError_of raw vid tid st voices0 tasks0 hvid hne hlen]
          exact absurd (hle.symm.trans hok) (by simp)
        · rw [submit_ok_of raw vid tid st voices0 tasks0 hvid hvoice hne hlen]
  · refine ⟨String.mk (List.replicate 799 'a' ++ [' ']), ?_, ?_, ?_⟩
    · rw [length_mk, List.length_append, List.length_replicate, List.length_singleton]
    · rw [length_mk, List.length_append, List.length_replicate, List.length_singleton]
      norm_num
    · have hps : pyStrip (String.mk (List.replicate 799 'a' ++ [' '])) =
          String.mk (List.replicate 799 'a') := by
        have h := pyStrip_replicate_pad 798
        norm_num at h
        exact h
      have hne : pyStrip (String.mk (List.replicate 799 'a' ++ [' '])) ≠ "" := by
        rw [hps]
        exact mk_replicate_ne_empty 799 (by norm_num)
      have hlen : (pyStrip (String.mk (List.replicate 799 'a' ++ [' ']))).length <
            800 ∨
          2000 < (pyStrip (String.mk (List.replicate 799 'a' ++ [' ']))).length :=
        Or.inl (by rw [hps, length_mk, List.length_replicate]; norm_num)
      rw [submit_lengthError_of _ vid tid st voices0 tasks0 hvid hne hlen]

theorem submit_text_task_strips_witness :
    (submit_text_task (some (String.mk (List.replicate 799 'a' ++ [' '])))
      (some "v1") (some [⟨"v1", "f.wav", 12, "t0", "p0"⟩]) none "tid1" "st1").1 =
      .lengthError :=
  ((submit_text_task_strips "v1" "tid1" "st1"
      (some [⟨"v1", "f.wav", 12, "t0", "p0"⟩]) none (by decide) (by decide)).1
    (String.mk (List.replicate 799 'a' ++ [' ']))).1.mpr
    ⟨by
      have h := pyStrip_replicate_pad 798
      norm_num at h
      rw [h]
      exact mk_replicate_ne_empty 799 (by norm_num),
     Or.inl (by
      have h := pyStrip_replicate_pad 798
      norm_num at h
      rw [h, length_mk, List.length_replicate]
      norm_num)⟩

end TongjiVoice
